import Mathlib

/-!
Shallow embedding of the Streamlit COBOL-to-Java pipeline orchestrator
(`src/app1.py`).  Session state is modelled as a record of optional strings
(one field per `st.session_state` key the handlers touch); each button
handler becomes a function from the external collaborator, the text inputs
and the current state to an `Outcome` recording the new state, the external
requests issued (in order), the user-visible warnings, and whether an
exception propagated out of the handler.
-/

namespace CobolApp

/-- One request to the external model collaborator: the agent role, the task
description text built by the handler, and the context text (outputs of
earlier tasks in the same batch) appended to it. -/
structure ModelRequest where
  role : String
  description : String
  context : String
deriving DecidableEq, Repr

/-- Modelled from the spec: the external model collaborator (the LLM behind
`crew.kickoff`) is a text transformer answering one request at a time;
grouped tasks run as an ordered batch in which a later task receives the
earlier task output as its context (spec section 6), and `kickoff` returns
the last task output.  `none` models the collaborator raising an error. -/
def Collaborator : Type := ModelRequest → Option String

/-- The `st.session_state` keys written by the handlers in `src/app1.py`;
`none` means the key is absent from session state. -/
structure AppState where
  brd_output : Option String := none
  java_output : Option String := none
  original_java_output : Option String := none
  evaluation_report : Option String := none
  optimized_java_output : Option String := none
  enterprise_java_output : Option String := none
  optimization_level : Option String := none
deriving DecidableEq, Repr

/-- Fresh session: every key absent. -/
def initialState : AppState := {}

/-- Result of running one button handler: the session state afterwards (at
the raise point when an exception escaped), the external requests issued in
order, the warnings shown, and whether an exception propagated. -/
structure Outcome where
  state : AppState
  calls : List ModelRequest
  warnings : List String
  raised : Bool
deriving DecidableEq, Repr

/-- The `AgentPrompt` constant of the Generate-BRD handler. -/
def AgentPrompt : String := "You are a senior Business Analyst with expertise in COBOL programs and Business Requirement Documents (BRDs).
Your task is to analyze the COBOL source code provided and extract relevant details needed for a clear and accurate BRD.

ONLY use the information explicitly mentioned in the COBOL source code and the business glossary.
DO NOT make assumptions or include any information that is not present in the input data.

Focus on:
- Identifying business rules, especially critical ones as per business glossary or comment tags
- Input and output data structures, including key fields and their purpose
- Key calculations or transformations
- Conditions or validations present in the logic, including any error messages or exception handling mechanisms
- System interfaces, dependencies, or architectural notes
- Any performance considerations or technical constraints mentioned in the COBOL code

You are not expected to reverse-engineer the full logic, only to summarize observable behavior from the COBOL code to be used in a BRD context.

Be clear and concise. When something is ambiguous or undefined, mention it as \"Not explicitly defined in source code.\"

Respond only in plain English."

/-- The `BRD_PROMPT` constant of the Generate-BRD handler. -/
def BRD_PROMPT : String := "
You are a documentation expert tasked with converting the technical analysis into a formal Business Requirements Document (BRD) section.

ONLY use the content provided in the \"COBOL Analysis Output\" below.
Do NOT introduce any new functionality or inferred behavior.
Avoid hallucinations or speculative assumptions.
Stick strictly to what is mentioned in the analysis.

Structure your BRD section to include:
- Functional Overview
- Inputs and Outputs (include key fields if available)
- Business Rules (highlight critical ones if tagged)
- Error Handling (include validations and messages)
- Dependencies (if any)
- Technical Constraints (like performance considerations)
- Glossary (if referenced terms are used)
- Process Flow Visualization (describe the flow in plain steps)

Maintain a professional tone and avoid unnecessary technical jargon.
"

/-- Description of `analyze_cobol_task`: `AgentPrompt` followed by the COBOL
code and the glossary. -/
def analyze_cobol_description (cobol_code glossary : String) : String :=
  AgentPrompt ++ "\n\nCOBOL Code:\n" ++ cobol_code ++ "\n\nGlossary:\n" ++ glossary

/-- Description of `brd_generation_task`. -/
def brd_generation_description : String :=
  BRD_PROMPT ++ "\n\nUse the COBOL Analysis Output from the previous agent to create the BRD section."

/-- The analysis sub-request of the Generate-BRD handler (first task of its
crew, agent `cobol_analyst`). -/
def analysisRequest (cobol_code glossary : String) : ModelRequest :=
  { role := "COBOL Analyst"
    description := analyze_cobol_description cobol_code glossary
    context := "" }

/-- The drafting sub-request of the Generate-BRD handler (second task of its
crew, agent `brd_writer`); its context is the full output of the analysis
sub-request. -/
def draftingRequest (analysisOutput : String) : ModelRequest :=
  { role := "BRD Writer"
    description := brd_generation_description
    context := analysisOutput }

/-- Python truthiness test `not cobol_code.strip()` of the Generate-BRD
guard: true exactly when the string is empty or whitespace-only. -/
def isBlank (s : String) : Bool := s.data.all Char.isWhitespace

/-- The "Generate BRD using CrewAI" button handler: warn when the COBOL
input is blank, otherwise run the two-task crew (analysis then drafting,
the drafting task consuming the analysis output as context) and store the
final raw output under `brd_output`. -/
def generate_brd (llm : Collaborator) (cobol_code glossary : String)
    (s : AppState) : Outcome :=
  if isBlank cobol_code then
    { state := s, calls := [], warnings := ["Please enter some COBOL code."], raised := false }
  else
    let r1 := analysisRequest cobol_code glossary
    match llm r1 with
    | none => { state := s, calls := [r1], warnings := [], raised := true }
    | some analysisOutput =>
      let r2 := draftingRequest analysisOutput
      match llm r2 with
      | none => { state := s, calls := [r1, r2], warnings := [], raised := true }
      | some result =>
        { state := { s with brd_output := some result }
          calls := [r1, r2], warnings := [], raised := false }

/-- Description of `java_generation_task`: the guideline template with the
COBOL code and the stored BRD output interpolated. -/
def java_generation_description (cobol_code brd : String) : String :=
  "Generate a COMPLETE and DETAILED Java code implementation that is functionally equivalent to the provided COBOL code.

            COBOL Code:
            " ++ cobol_code ++ "

            BRD Output:
            " ++ brd ++ "

            Follow these guidelines:
            1. Create a COMPLETE end-to-end Java implementation with ALL necessary classes, methods, and files
            2. Include ALL business logic, calculations, and data processing from the COBOL code
            3. Implement proper error handling for all operations
            4. Include detailed comments explaining the code and its relationship to the original COBOL
            5. Use modern Java best practices and appropriate design patterns
            6. Create proper data structures to represent all COBOL records and variables
            7. Implement ALL validation rules and business logic exactly as in the COBOL code
            8. Include a main class that demonstrates the execution flow
            9. Ensure all file operations are properly implemented if present in the COBOL code
            10. DO NOT provide simplified or sample code - implement the FULL functionality

            Your response should be production-ready Java code that could directly replace the COBOL implementation."

/-- The single request of the Generate-Java handler (agent
`java_code_generator`). -/
def javaGenerationRequest (cobol_code brd : String) : ModelRequest :=
  { role := "COBOL to Java Migration Expert"
    description := java_generation_description cobol_code brd
    context := "" }

/-- The "Generate Java Code from BRD" button handler: warn when `brd_output`
is absent, otherwise run the single-task crew and store the raw result under
both `java_output` and `original_java_output`. -/
def generate_java (llm : Collaborator) (cobol_code : String)
    (s : AppState) : Outcome :=
  match s.brd_output with
  | none =>
    { state := s, calls := [], warnings := ["Please generate a BRD first."], raised := false }
  | some brd =>
    let r := javaGenerationRequest cobol_code brd
    match llm r with
    | none => { state := s, calls := [r], warnings := [], raised := true }
    | some java_result =>
      { state := { s with java_output := some java_result
                          original_java_output := some java_result }
        calls := [r], warnings := [], raised := false }

/-- The `evaluation_criteria` constant of the Evaluate-and-Optimize
handler. -/
def evaluation_criteria : String := "
        Evaluate the Java code against the original COBOL code for the following aspects:

        1. File Input/Output: Check if all file operations in COBOL are properly implemented in Java
        2. Business Logic: Verify all calculations, formulas, and business rules are correctly translated
        3. Error Handling: Ensure all error conditions and exception handling are implemented
        4. Data Structures: Confirm all COBOL data structures have equivalent Java representations
        5. Control Flow: Validate that program flow, loops, and conditionals match the COBOL logic
        6. Report Generation: Check if all reporting functionality is properly implemented
        7. Data Persistence: Verify that data storage and retrieval mechanisms are equivalent
        8. Validation Rules: Ensure all input validation and business rule validations are implemented

        For each aspect, provide:
        - Status: Complete, Partial, or Missing
        - Specific gaps or issues identified
        - Recommendations for improvement

        Format your evaluation as a structured report with clear sections for each aspect.
        "

/-- Description of `evaluation_task`: the COBOL code, the current stored Java
code and the fixed criteria. -/
def evaluation_description (cobol_code java : String) : String :=
  "Evaluate the Java code against the original COBOL code using the criteria below.

            COBOL Code:
            " ++ cobol_code ++ "

            Java Code:
            " ++ java ++ "

            Evaluation Criteria:
            " ++ evaluation_criteria ++ "

            Provide a detailed evaluation report identifying specific gaps and issues.
            "

/-- Description of the second `optimization_task` (the one actually executed):
the evaluation report, the prior Java code and the original COBOL code. -/
def optimization_description (evaluationReport java cobol_code : String) : String :=
  "Based on the evaluation report below, optimize the Java code to address all identified gaps and issues.

                Evaluation Report:
                " ++ evaluationReport ++ "

                Original Java Code:
                " ++ java ++ "

                Original COBOL Code:
                " ++ cobol_code ++ "

                Focus on implementing missing functionality and fixing incomplete aspects while maintaining the existing correct implementations.

                Ensure the optimized code is complete, accurate, and follows Java best practices.

                Return the complete optimized Java code implementation.
                "

/-- The evaluation request of the Evaluate-and-Optimize handler (agent
`code_evaluator`). -/
def evaluationRequest (cobol_code java : String) : ModelRequest :=
  { role := "COBOL-Java Conversion Evaluator"
    description := evaluation_description cobol_code java
    context := "" }

/-- The optimization request of the Evaluate-and-Optimize handler (agent
`code_optimizer`); its description embeds the evaluation output. -/
def optimizationRequest (evaluationReport java cobol_code : String) : ModelRequest :=
  { role := "Java Code Optimizer"
    description := optimization_description evaluationReport java cobol_code
    context := "" }

/-- The "Evaluate & Optimize Java Code" button handler: warn when
`java_output` is absent; otherwise set `optimization_level` to "basic",
run the evaluation crew, store `evaluation_report`, run the optimization
crew on the evaluation output, and store its result under both
`optimized_java_output` and `java_output`.  The session-state writes happen
in that order, so a collaborator error leaves the writes already made. -/
def evaluate_and_optimize (llm : Collaborator) (cobol_code : String)
    (s : AppState) : Outcome :=
  match s.java_output with
  | none =>
    { state := s, calls := [], warnings := ["Please generate Java code first."], raised := false }
  | some java =>
    let s1 := { s with optimization_level := some "basic" }
    let r1 := evaluationRequest cobol_code java
    match llm r1 with
    | none => { state := s1, calls := [r1], warnings := [], raised := true }
    | some evaluation_result =>
      let s2 := { s1 with evaluation_report := some evaluation_result }
      let r2 := optimizationRequest evaluation_result java cobol_code
      match llm r2 with
      | none => { state := s2, calls := [r1, r2], warnings := [], raised := true }
      | some optimization_result =>
        { state := { s2 with optimized_java_output := some optimization_result
                             java_output := some optimization_result }
          calls := [r1, r2], warnings := [], raised := false }

/-- The `enterprise_criteria` constant of the enterprise-refinement
handler. -/
def enterprise_criteria : String := "
    Refine the Java code to address these critical enterprise requirements:

    1. CRITICAL: Complete All Class Definitions
       - Implement ALL referenced classes (Employee, Timecard, PayrollReport, etc.)
       - Include ALL fields, constructors, getters/setters, and methods
       - Ensure no \"skeleton\" or commented-out code remains

    2. CRITICAL: Implement Complete COBOL Record Parsing
       - Create parsers for ALL fixed-length COBOL record formats
       - Implement proper field extraction with exact positioning
       - Handle COMP-3 packed decimal fields correctly
       - Example implementation required:
         ```java
         public static Employee parseCobolEmployee(String record) \x7b
             if (record.length() < 120) \x7b
                 throw new IllegalArgumentException(\"Invalid employee record length\");
             \x7d

             String id = record.substring(0, 6).trim();
             String name = record.substring(6, 31).trim();
             BigDecimal hourlyRate = parseComp3(record, 31, 5); // COMP-3 parsing
             int exemptions = Integer.parseInt(record.substring(36, 38).trim());
             String state = record.substring(38, 40).trim();

             return new Employee(id, name, hourlyRate, exemptions, state);
         \x7d
         ```

    3. Fix Exception Handling Anti-Patterns
       - Create custom exception classes for different error scenarios
       - Either log OR throw exceptions, not both
       - Implement proper exception hierarchy
       - Example implementation required:
         ```java
         public void loadEmployeesFromFile(String filename) throws PayrollProcessingException \x7b
             try \x7b
                 // ... file processing
             \x7d catch (IOException e) \x7b
                 String message = \"Failed to load employees from: \" + filename;
                 LOGGER.error(message, e);
                 throw new PayrollProcessingException(message, e);
             \x7d
         \x7d
         ```

    4. Data Compatibility: Implement proper data readers/writers that can directly work with COBOL data files
       - Add support for EBCDIC encoding if needed
       - Handle fixed-length records properly
       - Implement proper data type conversions

    5. Financial Precision: Replace all floating-point calculations with proper decimal handling
       - Use BigDecimal for all monetary calculations
       - Ensure exact decimal precision matching COBOL COMP-3 fields
       - Implement proper rounding modes for financial calculations

    6. Performance Optimization:
       - Replace List iterations with HashMap lookups for better performance
       - Optimize file I/O operations for large datasets
       - Add appropriate caching mechanisms

    7. Add Unit Tests:
       - Include JUnit test framework setup
       - Add test cases for critical business logic
       - Include sample test data

    Return the complete enterprise-ready Java implementation with NO skeleton code, NO commented-out functionality, and ALL classes fully implemented.
    "

/-- Description of `refinement_task`: the current stored Java code, the
original COBOL code and the fixed enterprise criteria. -/
def refinement_description (java cobol_code : String) : String :=
  "Refine the optimized Java code to enterprise production standards.

        Current Java Code:
        " ++ java ++ "

        Original COBOL Code:
        " ++ cobol_code ++ "

        Enterprise Criteria:
        " ++ enterprise_criteria ++ "

        CRITICAL IMPLEMENTATION REQUIREMENTS:
        1. DO NOT leave any commented-out code or TODOs in your implementation
        2. Implement ALL class definitions completely (Employee, Timecard, PayrollReport, etc.)
        3. Implement ALL COBOL record parsing logic with exact field positions
        4. Fix ALL exception handling to follow best practices
        5. Ensure ALL business logic is fully implemented, not just described

        Your implementation MUST be complete, compilable, and ready for production use.

        Provide a complete enterprise-grade Java implementation that addresses all the criteria above.
        "

/-- The single request of the enterprise-refinement handler (agent
`enterprise_refiner`). -/
def refinementRequest (java cobol_code : String) : ModelRequest :=
  { role := "Enterprise Java Implementation Expert"
    description := refinement_description java cobol_code
    context := "" }

/-- The "Apply Enterprise-Grade Refinements" button handler.  The button is
rendered only when `optimized_java_output` is present (line 366), so with it
absent the handler is a silent no-op: no warning, no call, no state change.
When present, the handler reads `java_output` (a raising key lookup if it
were absent), runs the single-task refinement crew and stores its result
under `enterprise_java_output` and `java_output`, then sets
`optimization_level` to "enterprise". -/
def refine_enterprise (llm : Collaborator) (cobol_code : String)
    (s : AppState) : Outcome :=
  match s.optimized_java_output with
  | none => { state := s, calls := [], warnings := [], raised := false }
  | some _ =>
    match s.java_output with
    | none => { state := s, calls := [], warnings := [], raised := true }
    | some java =>
      let r := refinementRequest java cobol_code
      match llm r with
      | none => { state := s, calls := [r], warnings := [], raised := true }
      | some refinement_result =>
        { state := { s with enterprise_java_output := some refinement_result
                            java_output := some refinement_result
                            optimization_level := some "enterprise" }
          calls := [r], warnings := [], raised := false }

/-- The Java download filename choice (line 526): the enterprise name exactly
when `optimization_level` is present and equals "enterprise". -/
def file_name (s : AppState) : String :=
  match s.optimization_level with
  | some lvl =>
    if lvl = "enterprise" then "Enterprise_Java_Implementation.java"
    else "COBOL_to_Java_Implementation.java"
  | none => "COBOL_to_Java_Implementation.java"

/-- A later-stage user action following Java generation: either the
Evaluate-and-Optimize button or the enterprise-refinement button, with the
collaborator and COBOL input in effect at that click. -/
inductive FollowUp where
  | optimize (llm : Collaborator) (cobol_code : String)
  | refine (llm : Collaborator) (cobol_code : String)

/-- Run a sequence of follow-up actions, carrying the session state across
them (whether or not each action raised). -/
def runFollowUps : List FollowUp → AppState → AppState
  | [], s => s
  | FollowUp.optimize llm cobol_code :: rest, s =>
    runFollowUps rest (evaluate_and_optimize llm cobol_code s).state
  | FollowUp.refine llm cobol_code :: rest, s =>
    runFollowUps rest (refine_enterprise llm cobol_code s).state

/-- A deterministic stand-in collaborator used for concrete runs. -/
def stubLlm : Collaborator := fun _ => some "OK"

/-- A collaborator whose every request raises. -/
def failLlm : Collaborator := fun _ => none

/-- Successful Generate-BRD run: both sub-requests issued in order and the
drafting output stored under `brd_output`. -/
theorem generate_brd_success (llm : Collaborator) (cobol_code glossary : String)
    (s : AppState) (analysisOutput brdResult : String)
    (hne : isBlank cobol_code = false)
    (h1 : llm (analysisRequest cobol_code glossary) = some analysisOutput)
    (h2 : llm (draftingRequest analysisOutput) = some brdResult) :
    generate_brd llm cobol_code glossary s =
      { state := { s with brd_output := some brdResult }
        calls := [analysisRequest cobol_code glossary, draftingRequest analysisOutput]
        warnings := [], raised := false } := by
  simp only [generate_brd, hne, Bool.false_eq_true, if_false, h1, h2]

/-- Successful Generate-Java run: the single request issued and its output
stored under both `java_output` and `original_java_output`. -/
theorem generate_java_success (llm : Collaborator) (cobol_code : String)
    (s : AppState) (brd java_result : String)
    (hbrd : s.brd_output = some brd)
    (h : llm (javaGenerationRequest cobol_code brd) = some java_result) :
    generate_java llm cobol_code s =
      { state := { s with java_output := some java_result
                          original_java_output := some java_result }
        calls := [javaGenerationRequest cobol_code brd]
        warnings := [], raised := false } := by
  simp only [generate_java, hbrd, h]

/-- Successful Evaluate-and-Optimize run: both requests issued in order,
the evaluation output stored under `evaluation_report`, the optimization
output stored under `optimized_java_output` and `java_output`, and the
level left at "basic". -/
theorem evaluate_and_optimize_success (llm : Collaborator) (cobol_code : String)
    (s : AppState) (java evaluation_result optimization_result : String)
    (hj : s.java_output = some java)
    (h1 : llm (evaluationRequest cobol_code java) = some evaluation_result)
    (h2 : llm (optimizationRequest evaluation_result java cobol_code) = some optimization_result) :
    evaluate_and_optimize llm cobol_code s =
      { state := { s with java_output := some optimization_result
                          evaluation_report := some evaluation_result
                          optimized_java_output := some optimization_result
                          optimization_level := some "basic" }
        calls := [evaluationRequest cobol_code java,
                  optimizationRequest evaluation_result java cobol_code]
        warnings := [], raised := false } := by
  simp only [evaluate_and_optimize, hj, h1, h2]

/-- Successful enterprise-refinement run: the single request issued, its
output stored under `enterprise_java_output` and `java_output`, and the
level set to "enterprise". -/
theorem refine_enterprise_success (llm : Collaborator) (cobol_code : String)
    (s : AppState) (oj java refinement_result : String)
    (hoj : s.optimized_java_output = some oj)
    (hj : s.java_output = some java)
    (h : llm (refinementRequest java cobol_code) = some refinement_result) :
    refine_enterprise llm cobol_code s =
      { state := { s with java_output := some refinement_result
                          enterprise_java_output := some refinement_result
                          optimization_level := some "enterprise" }
        calls := [refinementRequest java cobol_code]
        warnings := [], raised := false } := by
  simp only [refine_enterprise, hoj, hj, h]

/-- The Evaluate-and-Optimize handler never writes
`original_java_output`. -/
theorem evaluate_and_optimize_original_java (llm : Collaborator)
    (cobol_code : String) (s : AppState) :
    (evaluate_and_optimize llm cobol_code s).state.original_java_output =
      s.original_java_output := by
  simp only [evaluate_and_optimize]
  cases s.java_output with
  | none => rfl
  | some java =>
    simp only []
    cases llm (evaluationRequest cobol_code java) with
    | none => rfl
    | some ev =>
      simp only []
      cases llm (optimizationRequest ev java cobol_code) with
      | none => rfl
      | some opt => rfl

/-- The enterprise-refinement handler never writes
`original_java_output`. -/
theorem refine_enterprise_original_java (llm : Collaborator)
    (cobol_code : String) (s : AppState) :
    (refine_enterprise llm cobol_code s).state.original_java_output =
      s.original_java_output := by
  simp only [refine_enterprise]
  cases s.optimized_java_output with
  | none => rfl
  | some oj =>
    simp only []
    cases s.java_output with
    | none => rfl
    | some java =>
      simp only []
      cases llm (refinementRequest java cobol_code) with
      | none => rfl
      | some out => rfl

/-- No sequence of optimize/refine follow-up clicks changes
`original_java_output`. -/
theorem runFollowUps_original_java : ∀ (steps : List FollowUp) (s : AppState),
    (runFollowUps steps s).original_java_output = s.original_java_output
  | [], _ => rfl
  | FollowUp.optimize llm cobol_code :: rest, s => by
    rw [runFollowUps, runFollowUps_original_java rest,
      evaluate_and_optimize_original_java llm cobol_code s]
  | FollowUp.refine llm cobol_code :: rest, s => by
    rw [runFollowUps, runFollowUps_original_java rest,
      refine_enterprise_original_java llm cobol_code s]

/-- C1: in the code, a successful Evaluate-and-Optimize run leaves the stored
`optimization_level` at "basic" (written at the start of the handler and
never updated to "optimized"), contradicting the documented level
"optimized"; the level is indeed absent in a fresh session. -/
theorem c1_optimization_level_stays_basic_after_optimize :
    initialState.optimization_level = none ∧
    (evaluate_and_optimize stubLlm "COBOL SRC"
        { initialState with java_output := some "JAVA" }).raised = false ∧
    (evaluate_and_optimize stubLlm "COBOL SRC"
        { initialState with java_output := some "JAVA" }).state.optimization_level = some "basic" ∧
    (evaluate_and_optimize stubLlm "COBOL SRC"
        { initialState with java_output := some "JAVA" }).state.optimization_level ≠ some "optimized" :=
  ⟨rfl, rfl, rfl, by decide⟩

/-- C2 counterexample: invoking the enterprise-refinement action with its
predecessor (`optimized_java_output`) absent leaves state unchanged and
makes no external call, but produces NO user-visible warning (the button is
simply not rendered), refuting the claim that every stage transition warns
when its predecessor is absent. -/
theorem c2_refine_enterprise_no_warning :
    initialState.optimized_java_output = none ∧
    refine_enterprise stubLlm "COBOL SRC" initialState =
      { state := initialState, calls := [], warnings := [], raised := false } :=
  ⟨rfl, rfl⟩

/-- C2 (amended): when its guard fails, each of the first three handlers
leaves state unchanged, makes no external call and emits its warning; the
enterprise-refinement action with predecessor absent also leaves state
unchanged and makes no external call, but emits no warning (it is simply
unavailable). -/
theorem c2_guards_block_without_external_call (llm : Collaborator)
    (cobol_code glossary : String) (s : AppState) :
    (isBlank cobol_code = true →
      generate_brd llm cobol_code glossary s =
        { state := s, calls := []
          warnings := ["Please enter some COBOL code."], raised := false }) ∧
    (s.brd_output = none →
      generate_java llm cobol_code s =
        { state := s, calls := []
          warnings := ["Please generate a BRD first."], raised := false }) ∧
    (s.java_output = none →
      evaluate_and_optimize llm cobol_code s =
        { state := s, calls := []
          warnings := ["Please generate Java code first."], raised := false }) ∧
    (s.optimized_java_output = none →
      refine_enterprise llm cobol_code s =
        { state := s, calls := [], warnings := [], raised := false }) := by
  refine ⟨fun h => ?_, fun h => ?_, fun h => ?_, fun h => ?_⟩
  · simp only [generate_brd, h, if_true]
  · simp only [generate_java, h]
  · simp only [evaluate_and_optimize, h]
  · simp only [refine_enterprise, h]

/-- C2 witness: all four guard branches exercised in a fresh session. -/
theorem c2_guards_block_witness :
    generate_brd stubLlm "" "G" initialState =
      { state := initialState, calls := []
        warnings := ["Please enter some COBOL code."], raised := false } ∧
    generate_java stubLlm "" initialState =
      { state := initialState, calls := []
        warnings := ["Please generate a BRD first."], raised := false } ∧
    evaluate_and_optimize stubLlm "" initialState =
      { state := initialState, calls := []
        warnings := ["Please generate Java code first."], raised := false } ∧
    refine_enterprise stubLlm "" initialState =
      { state := initialState, calls := [], warnings := [], raised := false } :=
  ⟨(c2_guards_block_without_external_call stubLlm "" "G" initialState).1 rfl,
   (c2_guards_block_without_external_call stubLlm "" "G" initialState).2.1 rfl,
   (c2_guards_block_without_external_call stubLlm "" "G" initialState).2.2.1 rfl,
   (c2_guards_block_without_external_call stubLlm "" "G" initialState).2.2.2 rfl⟩

/-- C3: after a successful Generate-Java run, `original_java_output` holds
that run's result, and no sequence of later optimize/refine clicks (whether
they succeed, warn or raise) changes it. -/
theorem c3_original_java_snapshot_stable (llm : Collaborator) (cobol_code : String)
    (steps : List FollowUp) (s : AppState) (brd java_result : String)
    (hbrd : s.brd_output = some brd)
    (h : llm (javaGenerationRequest cobol_code brd) = some java_result) :
    (generate_java llm cobol_code s).state.original_java_output = some java_result ∧
    (runFollowUps steps (generate_java llm cobol_code s).state).original_java_output =
      some java_result := by
  have hs := generate_java_success llm cobol_code s brd java_result hbrd h
  refine ⟨by rw [hs], ?_⟩
  rw [runFollowUps_original_java, hs]

/-- C3 witness: a concrete session running Generate-Java then an optimize
click and a refine click keeps the snapshot at the Generate-Java result. -/
theorem c3_original_java_snapshot_witness :
    (generate_java stubLlm "C" { initialState with brd_output := some "B" }).state.original_java_output =
      some "OK" ∧
    (runFollowUps [FollowUp.optimize stubLlm "C", FollowUp.refine stubLlm "C"]
        (generate_java stubLlm "C" { initialState with brd_output := some "B" }).state).original_java_output =
      some "OK" :=
  c3_original_java_snapshot_stable stubLlm "C"
    [FollowUp.optimize stubLlm "C", FollowUp.refine stubLlm "C"]
    { initialState with brd_output := some "B" } "B" "OK" rfl rfl

/-- C4 counterexample: a collaborator error during Evaluate-and-Optimize
does NOT leave session state exactly as before the invocation: the handler
writes `optimization_level := "basic"` before its first external call, so
the post-failure state differs from the pre-state. -/
theorem c4_optimize_failure_mutates_state :
    (evaluate_and_optimize failLlm "COBOL SRC"
        { initialState with java_output := some "JAVA" }).raised = true ∧
    (evaluate_and_optimize failLlm "COBOL SRC"
        { initialState with java_output := some "JAVA" }).state ≠
      { initialState with java_output := some "JAVA" } :=
  ⟨rfl, by decide⟩

/-- C4 (amended): collaborator errors propagate uncaught (`raised`), nothing
is retried and earlier outputs are never reverted; a failing Generate-BRD,
Generate-Java or refinement run leaves state exactly unchanged, but a
failing Evaluate-and-Optimize run has already set `optimization_level` to
"basic" and, when its first request succeeded, also stored the evaluation
report — each issued request appearing exactly once. -/
theorem c4_failure_no_retry_no_rollback (llm : Collaborator)
    (cobol_code glossary : String) (s : AppState) :
    ((generate_brd llm cobol_code glossary s).raised = true →
      (generate_brd llm cobol_code glossary s).state = s) ∧
    ((generate_java llm cobol_code s).raised = true →
      (generate_java llm cobol_code s).state = s) ∧
    ((refine_enterprise llm cobol_code s).raised = true →
      (refine_enterprise llm cobol_code s).state = s) ∧
    ((evaluate_and_optimize llm cobol_code s).raised = true →
      ∃ java, s.java_output = some java ∧
        (((evaluate_and_optimize llm cobol_code s).state =
            { s with optimization_level := some "basic" } ∧
          (evaluate_and_optimize llm cobol_code s).calls =
            [evaluationRequest cobol_code java]) ∨
         (∃ ev, llm (evaluationRequest cobol_code java) = some ev ∧
           (evaluate_and_optimize llm cobol_code s).state =
             { s with evaluation_report := some ev, optimization_level := some "basic" } ∧
           (evaluate_and_optimize llm cobol_code s).calls =
             [evaluationRequest cobol_code java,
              optimizationRequest ev java cobol_code]))) := by
  refine ⟨?_, ?_, ?_, ?_⟩
  · simp only [generate_brd]
    split
    · intro h; exact Bool.noConfusion h
    · cases llm (analysisRequest cobol_code glossary) with
      | none => intro _; rfl
      | some analysisOutput =>
        simp only []
        cases llm (draftingRequest analysisOutput) with
        | none => intro _; rfl
        | some result => intro h; exact Bool.noConfusion h
  · simp only [generate_java]
    cases s.brd_output with
    | none => intro h; exact Bool.noConfusion h
    | some brd =>
      simp only []
      cases llm (javaGenerationRequest cobol_code brd) with
      | none => intro _; rfl
      | some java_result => intro h; exact Bool.noConfusion h
  · simp only [refine_enterprise]
    cases s.optimized_java_output with
    | none => intro h; exact Bool.noConfusion h
    | some oj =>
      simp only []
      cases s.java_output with
      | none => intro _; rfl
      | some java =>
        simp only []
        cases llm (refinementRequest java cobol_code) with
        | none => intro _; rfl
        | some out => intro h; exact Bool.noConfusion h
  · simp only [evaluate_and_optimize]
    cases s.java_output with
    | none => intro h; exact Bool.noConfusion h
    | some java =>
      simp only []
      cases h1 : llm (evaluationRequest cobol_code java) with
      | none => intro _; exact ⟨java, rfl, Or.inl ⟨rfl, rfl⟩⟩
      | some ev =>
        simp only []
        cases llm (optimizationRequest ev java cobol_code) with
        | none => intro _; exact ⟨java, rfl, Or.inr ⟨ev, h1, rfl, rfl⟩⟩
        | some opt => intro h; exact Bool.noConfusion h

/-- C4 witness: a session whose collaborator always raises — Generate-BRD
fails leaving state untouched; Evaluate-and-Optimize fails leaving the
"basic" level write behind. -/
theorem c4_failure_no_retry_no_rollback_witness :
    (generate_brd failLlm "C" "G" { initialState with java_output := some "JAVA" }).state =
      { initialState with java_output := some "JAVA" } ∧
    (∃ java, ({ initialState with java_output := some "JAVA" } : AppState).java_output = some java ∧
      (((evaluate_and_optimize failLlm "C" { initialState with java_output := some "JAVA" }).state =
          { { initialState with java_output := some "JAVA" } with optimization_level := some "basic" } ∧
        (evaluate_and_optimize failLlm "C" { initialState with java_output := some "JAVA" }).calls =
          [evaluationRequest "C" java]) ∨
       (∃ ev, failLlm (evaluationRequest "C" java) = some ev ∧
         (evaluate_and_optimize failLlm "C" { initialState with java_output := some "JAVA" }).state =
           { { initialState with java_output := some "JAVA" } with
               evaluation_report := some ev, optimization_level := some "basic" } ∧
         (evaluate_and_optimize failLlm "C" { initialState with java_output := some "JAVA" }).calls =
           [evaluationRequest "C" java, optimizationRequest ev java "C"]))) :=
  ⟨(c4_failure_no_retry_no_rollback failLlm "C" "G"
      { initialState with java_output := some "JAVA" }).1 rfl,
   (c4_failure_no_retry_no_rollback failLlm "C" "G"
      { initialState with java_output := some "JAVA" }).2.2.2 rfl⟩

/-- C5: a non-blank Generate-BRD run issues exactly the analysis request
(whose description embeds the COBOL source and the glossary) followed by
the drafting request (whose context is the full analysis output), and
stores the drafting output as `brd_output`. -/
theorem c5_generate_brd_two_chained_requests (llm : Collaborator)
    (cobol_code glossary : String) (s : AppState)
    (analysisOutput brdResult : String)
    (hne : isBlank cobol_code = false)
    (h1 : llm (analysisRequest cobol_code glossary) = some analysisOutput)
    (h2 : llm (draftingRequest analysisOutput) = some brdResult) :
    (generate_brd llm cobol_code glossary s).calls =
      [analysisRequest cobol_code glossary, draftingRequest analysisOutput] ∧
    (analysisRequest cobol_code glossary).context = "" ∧
    (draftingRequest analysisOutput).context = analysisOutput ∧
    (∃ t u v, (analysisRequest cobol_code glossary).description =
      t ++ cobol_code ++ u ++ glossary ++ v) ∧
    (generate_brd llm cobol_code glossary s).state.brd_output = some brdResult ∧
    (generate_brd llm cobol_code glossary s).raised = false := by
  have hs := generate_brd_success llm cobol_code glossary s analysisOutput brdResult hne h1 h2
  refine ⟨by rw [hs], rfl, rfl, ?_, by rw [hs], by rw [hs]⟩
  refine ⟨AgentPrompt ++ "\n\nCOBOL Code:\n", "\n\nGlossary:\n", "", ?_⟩
  rw [String.append_empty]
  rfl

/-- C5 witness: a concrete non-blank run with the stand-in collaborator. -/
theorem c5_generate_brd_two_chained_requests_witness :
    (generate_brd stubLlm "C" "G" initialState).calls =
      [analysisRequest "C" "G", draftingRequest "OK"] ∧
    (analysisRequest "C" "G").context = "" ∧
    (draftingRequest "OK").context = "OK" ∧
    (∃ t u v, (analysisRequest "C" "G").description = t ++ "C" ++ u ++ "G" ++ v) ∧
    (generate_brd stubLlm "C" "G" initialState).state.brd_output = some "OK" ∧
    (generate_brd stubLlm "C" "G" initialState).raised = false :=
  c5_generate_brd_two_chained_requests stubLlm "C" "G" initialState "OK" "OK"
    (by decide) rfl rfl

/-- C6: with `java_output` present, Evaluate-and-Optimize issues exactly the
evaluation request (over the COBOL source and current Java text) followed by
the optimization request (whose description embeds the evaluation output,
the prior Java text and the original COBOL text); afterwards `java_output`
holds the optimization output and `evaluation_report` the evaluation
output. -/
theorem c6_evaluate_then_optimize (llm : Collaborator) (cobol_code : String)
    (s : AppState) (java evaluation_result optimization_result : String)
    (hj : s.java_output = some java)
    (h1 : llm (evaluationRequest cobol_code java) = some evaluation_result)
    (h2 : llm (optimizationRequest evaluation_result java cobol_code) = some optimization_result) :
    (evaluate_and_optimize llm cobol_code s).calls =
      [evaluationRequest cobol_code java,
       optimizationRequest evaluation_result java cobol_code] ∧
    (∃ t u v, (evaluationRequest cobol_code java).description =
      t ++ cobol_code ++ u ++ java ++ v) ∧
    (∃ t u v w, (optimizationRequest evaluation_result java cobol_code).description =
      t ++ evaluation_result ++ u ++ java ++ v ++ cobol_code ++ w) ∧
    (evaluate_and_optimize llm cobol_code s).state.java_output = some optimization_result ∧
    (evaluate_and_optimize llm cobol_code s).state.evaluation_report = some evaluation_result ∧
    (evaluate_and_optimize llm cobol_code s).raised = false := by
  have hs := evaluate_and_optimize_success llm cobol_code s java
    evaluation_result optimization_result hj h1 h2
  refine ⟨by rw [hs], ?_, ?_, by rw [hs], by rw [hs], by rw [hs]⟩
  · refine ⟨"Evaluate the Java code against the original COBOL code using the criteria below.\n\n            COBOL Code:\n            ",
      "\n\n            Java Code:\n            ",
      "\n\n            Evaluation Criteria:\n            " ++ evaluation_criteria ++
        "\n\n            Provide a detailed evaluation report identifying specific gaps and issues.\n            ", ?_⟩
    simp only [evaluationRequest, evaluation_description, String.append_assoc]
  · exact ⟨"Based on the evaluation report below, optimize the Java code to address all identified gaps and issues.\n\n                Evaluation Report:\n                ",
      "\n\n                Original Java Code:\n                ",
      "\n\n                Original COBOL Code:\n                ",
      "\n\n                Focus on implementing missing functionality and fixing incomplete aspects while maintaining the existing correct implementations.\n\n                Ensure the optimized code is complete, accurate, and follows Java best practices.\n\n                Return the complete optimized Java code implementation.\n                ",
      rfl⟩

/-- C6 witness: a concrete run with Java present and the stand-in
collaborator. -/
theorem c6_evaluate_then_optimize_witness :
    (evaluate_and_optimize stubLlm "C" { initialState with java_output := some "J" }).calls =
      [evaluationRequest "C" "J", optimizationRequest "OK" "J" "C"] ∧
    (∃ t u v, (evaluationRequest "C" "J").description = t ++ "C" ++ u ++ "J" ++ v) ∧
    (∃ t u v w, (optimizationRequest "OK" "J" "C").description =
      t ++ "OK" ++ u ++ "J" ++ v ++ "C" ++ w) ∧
    (evaluate_and_optimize stubLlm "C" { initialState with java_output := some "J" }).state.java_output =
      some "OK" ∧
    (evaluate_and_optimize stubLlm "C" { initialState with java_output := some "J" }).state.evaluation_report =
      some "OK" ∧
    (evaluate_and_optimize stubLlm "C" { initialState with java_output := some "J" }).raised = false :=
  c6_evaluate_then_optimize stubLlm "C" { initialState with java_output := some "J" }
    "J" "OK" "OK" rfl rfl rfl

/-- C7: the enterprise-refinement action does nothing (it is not offered)
unless `optimized_java_output` is present; a successful run overwrites
`java_output` with its result and sets `optimization_level` to
"enterprise". -/
theorem c7_refine_enterprise_gating (llm : Collaborator) (cobol_code : String)
    (s : AppState) (oj java refinement_result : String) :
    (s.optimized_java_output = none →
      refine_enterprise llm cobol_code s =
        { state := s, calls := [], warnings := [], raised := false }) ∧
    (s.optimized_java_output = some oj → s.java_output = some java →
      llm (refinementRequest java cobol_code) = some refinement_result →
      (refine_enterprise llm cobol_code s).state.java_output = some refinement_result ∧
      (refine_enterprise llm cobol_code s).state.optimization_level = some "enterprise" ∧
      (refine_enterprise llm cobol_code s).calls = [refinementRequest java cobol_code] ∧
      (refine_enterprise llm cobol_code s).raised = false) := by
  refine ⟨fun h => by simp only [refine_enterprise, h], fun hoj hj h => ?_⟩
  have hs := refine_enterprise_success llm cobol_code s oj java refinement_result hoj hj h
  exact ⟨by rw [hs], by rw [hs], by rw [hs], by rw [hs]⟩

/-- C7 witness: the action is a silent no-op in a fresh session, and
succeeds with the expected writes once `optimized_java_output` exists. -/
theorem c7_refine_enterprise_gating_witness :
    refine_enterprise stubLlm "C" initialState =
      { state := initialState, calls := [], warnings := [], raised := false } ∧
    (refine_enterprise stubLlm "C"
        { initialState with optimized_java_output := some "OJ", java_output := some "J" }).state.java_output =
      some "OK" ∧
    (refine_enterprise stubLlm "C"
        { initialState with optimized_java_output := some "OJ", java_output := some "J" }).state.optimization_level =
      some "enterprise" ∧
    (refine_enterprise stubLlm "C"
        { initialState with optimized_java_output := some "OJ", java_output := some "J" }).calls =
      [refinementRequest "J" "C"] ∧
    (refine_enterprise stubLlm "C"
        { initialState with optimized_java_output := some "OJ", java_output := some "J" }).raised = false := by
  refine ⟨(c7_refine_enterprise_gating stubLlm "C" initialState "" "" "").1 rfl, ?_⟩
  exact (c7_refine_enterprise_gating stubLlm "C"
    { initialState with optimized_java_output := some "OJ", java_output := some "J" }
    "OJ" "J" "OK").2 rfl rfl rfl

/-- C8: whenever `java_output` is present (the download button is rendered),
the download filename is "Enterprise_Java_Implementation.java" exactly when
`optimization_level` is "enterprise" and is
"COBOL_to_Java_Implementation.java" in every other state, including
`optimization_level` absent. -/
theorem c8_download_filename (s : AppState) (java : String)
    (_hj : s.java_output = some java) :
    (file_name s = "Enterprise_Java_Implementation.java" ↔
      s.optimization_level = some "enterprise") ∧
    (s.optimization_level ≠ some "enterprise" →
      file_name s = "COBOL_to_Java_Implementation.java") := by
  cases hOpt : s.optimization_level with
  | none =>
    refine ⟨⟨fun h => ?_, fun h => Option.noConfusion h⟩, fun _ => ?_⟩
    · simp only [file_name, hOpt] at h
      exact absurd h (by decide)
    · simp only [file_name, hOpt]
  | some lvl =>
    by_cases hl : lvl = "enterprise"
    · subst hl
      refine ⟨⟨fun _ => rfl, fun _ => ?_⟩, fun hne => absurd rfl hne⟩
      simp only [file_name, hOpt, if_pos]
    · refine ⟨⟨fun h => ?_, fun h => absurd (Option.some.inj h) hl⟩, fun _ => ?_⟩
      · simp only [file_name, hOpt, if_neg hl] at h
        exact absurd h (by decide)
      · simp only [file_name, hOpt, if_neg hl]

/-- C8 witness: the enterprise filename with level "enterprise" present, and
the default filename with the level absent. -/
theorem c8_download_filename_witness :
    ((file_name { initialState with java_output := some "J", optimization_level := some "enterprise" } =
        "Enterprise_Java_Implementation.java" ↔
      ({ initialState with java_output := some "J", optimization_level := some "enterprise" } : AppState).optimization_level =
        some "enterprise") ∧
     (({ initialState with java_output := some "J", optimization_level := some "enterprise" } : AppState).optimization_level ≠
        some "enterprise" →
      file_name { initialState with java_output := some "J", optimization_level := some "enterprise" } =
        "COBOL_to_Java_Implementation.java")) ∧
    ((file_name { initialState with java_output := some "J" } =
        "Enterprise_Java_Implementation.java" ↔
      ({ initialState with java_output := some "J" } : AppState).optimization_level = some "enterprise") ∧
     (({ initialState with java_output := some "J" } : AppState).optimization_level ≠ some "enterprise" →
      file_name { initialState with java_output := some "J" } =
        "COBOL_to_Java_Implementation.java")) :=
  ⟨c8_download_filename
      { initialState with java_output := some "J", optimization_level := some "enterprise" } "J" rfl,
   c8_download_filename { initialState with java_output := some "J" } "J" rfl⟩

/-- C9: re-running Generate-BRD with the same inputs on a deterministic
collaborator performs the full two-request round trip again (no
memoization) and leaves `brd_output` exactly the second run's drafting
output — an overwrite, not an append. -/
theorem c9_rerun_generate_brd_overwrites (llm : Collaborator)
    (cobol_code glossary : String) (s : AppState)
    (analysisOutput brdResult : String)
    (hne : isBlank cobol_code = false)
    (h1 : llm (analysisRequest cobol_code glossary) = some analysisOutput)
    (h2 : llm (draftingRequest analysisOutput) = some brdResult) :
    (generate_brd llm cobol_code glossary s).state.brd_output = some brdResult ∧
    (generate_brd llm cobol_code glossary
        (generate_brd llm cobol_code glossary s).state).calls =
      [analysisRequest cobol_code glossary, draftingRequest analysisOutput] ∧
    (generate_brd llm cobol_code glossary
        (generate_brd llm cobol_code glossary s).state).state.brd_output = some brdResult ∧
    (generate_brd llm cobol_code glossary
        (generate_brd llm cobol_code glossary s).state).state =
      { (generate_brd llm cobol_code glossary s).state with brd_output := some brdResult } := by
  have hfst := generate_brd_success llm cobol_code glossary s analysisOutput brdResult hne h1 h2
  have hsnd := generate_brd_success llm cobol_code glossary
    (generate_brd llm cobol_code glossary s).state analysisOutput brdResult hne h1 h2
  exact ⟨by rw [hfst], by rw [hsnd], by rw [hsnd], by rw [hsnd]⟩

/-- C9 witness: two identical concrete runs on the stand-in collaborator. -/
theorem c9_rerun_generate_brd_overwrites_witness :
    (generate_brd stubLlm "C" "G" initialState).state.brd_output = some "OK" ∧
    (generate_brd stubLlm "C" "G"
        (generate_brd stubLlm "C" "G" initialState).state).calls =
      [analysisRequest "C" "G", draftingRequest "OK"] ∧
    (generate_brd stubLlm "C" "G"
        (generate_brd stubLlm "C" "G" initialState).state).state.brd_output = some "OK" ∧
    (generate_brd stubLlm "C" "G"
        (generate_brd stubLlm "C" "G" initialState).state).state =
      { (generate_brd stubLlm "C" "G" initialState).state with brd_output := some "OK" } :=
  c9_rerun_generate_brd_overwrites stubLlm "C" "G" initialState "OK" "OK"
    (by decide) rfl rfl

/-- C10: every successful Generate-Java run overwrites
`original_java_output` with that run's own result, whatever snapshot was
stored before. -/
theorem c10_rerun_generate_java_overwrites_snapshot (llm : Collaborator)
    (cobol_code : String) (s : AppState) (brd java_result : String)
    (hbrd : s.brd_output = some brd)
    (h : llm (javaGenerationRequest cobol_code brd) = some java_result) :
    (generate_java llm cobol_code s).state.original_java_output = some java_result ∧
    (generate_java llm cobol_code s).state.java_output = some java_result := by
  have hs := generate_java_success llm cobol_code s brd java_result hbrd h
  exact ⟨by rw [hs], by rw [hs]⟩

/-- C10 witness: a re-run from a state with an older snapshot "OLD" replaces
it with the new result. -/
theorem c10_rerun_generate_java_overwrites_snapshot_witness :
    (generate_java stubLlm "C"
        { initialState with brd_output := some "B", java_output := some "OLD", original_java_output := some "OLD" }).state.original_java_output =
      some "OK" ∧
    (generate_java stubLlm "C"
        { initialState with brd_output := some "B", java_output := some "OLD", original_java_output := some "OLD" }).state.java_output =
      some "OK" :=
  c10_rerun_generate_java_overwrites_snapshot stubLlm "C"
    { initialState with brd_output := some "B", java_output := some "OLD", original_java_output := some "OLD" }
    "B" "OK" rfl rfl

end CobolApp
